import Mathlib

/-!
Verification of the text layout and composition engine of the card generator.

The TypeScript source (class CardGenerator in src/card-generator.ts) is shallowly
embedded below.  JavaScript strings are modelled as lists of characters
(abbreviation Str), pixel quantities as rationals, the 2D canvas context as an
explicit state record (Ctx) accumulating an event trace of its draw calls, and
the text-measurement collaborator (ctx.measureText) as a function parameter from
fonts and strings to widths.
-/

namespace BeetleCard

/-- JavaScript strings, modelled as character lists. -/
abbrev Str := List Char

/-- Structural prefix test on character lists. -/
def isPrefixB : Str → Str → Bool
  | [], _ => true
  | _ :: _, [] => false
  | a :: as, b :: bs => (a == b) && isPrefixB as bs

/-- JS String.prototype.includes for a substring. -/
def includesL (s sub : Str) : Bool :=
  match s with
  | [] => sub.isEmpty
  | c :: t => isPrefixB sub (c :: t) || includesL t sub

/-- includes on Lean strings. -/
def includesStr (s sub : String) : Bool :=
  includesL s.data sub.data

/-- JS String.prototype.replace with a plain string pattern: replaces the first
occurrence only. -/
def replaceL (s pat rep : Str) : Str :=
  match s with
  | [] => []
  | c :: t =>
    if pat ≠ [] ∧ isPrefixB pat (c :: t) = true then rep ++ (c :: t).drop pat.length
    else c :: replaceL t pat rep

/-- replace on Lean strings. -/
def replaceStr (s pat rep : String) : String :=
  String.mk (replaceL s.data pat.data rep.data)

/-- JS truthiness of an optional number (undefined and 0 are falsy). -/
def jsTruthy : Option ℚ → Bool
  | some v => if v = 0 then false else true
  | none => false

/-- JS `a || b` for an optional number a: b when a is undefined or 0. -/
def jsOrNum : Option ℚ → ℚ → ℚ
  | some v, d => if v = 0 then d else v
  | none, d => d

/-- JS truthiness of an optional string (undefined and "" are falsy). -/
def strTruthy : Option String → Bool
  | some s => !s.isEmpty
  | none => false

/-!  ### LineWrapper: wrapText (source lines 299-320)

    const words = text.split(" ");
    const lines: string[] = [];
    let currentLine = words[0] || "";
    for (let i = 1; i < words.length; i++) {
      const word = words[i];
      const width = ctx.measureText(currentLine + " " + word).width;
      if (width < maxWidth) { currentLine += " " + word; }
      else { lines.push(currentLine); currentLine = word; }
    }
    lines.push(currentLine);
    return lines;

`text.split(" ")` (split on every single space, keeping empty pieces, with
`"".split(" ") = [""]`) is exactly `List.splitOn ' '`.  The measurement of the
current font is abstracted as `m : Str → ℚ`. -/

/-- The loop of wrapText: remaining words, currentLine, lines so far. -/
def wrapTextGo (m : Str → ℚ) (maxWidth : ℚ) : List Str → Str → List Str → List Str
  | [], currentLine, lines => lines ++ [currentLine]
  | word :: rest, currentLine, lines =>
    let width := m (currentLine ++ ' ' :: word)
    if width < maxWidth then wrapTextGo m maxWidth rest (currentLine ++ ' ' :: word) lines
    else wrapTextGo m maxWidth rest word (lines ++ [currentLine])

/-- wrapText from the source, with the measurer `m` standing for
`s ↦ ctx.measureText(s).width` at the context's current font. -/
def wrapText (m : Str → ℚ) (text : Str) (maxWidth : ℚ) : List Str :=
  let words := text.splitOn ' '
  wrapTextGo m maxWidth (words.drop 1) (words.headD []) []

/-- Modelled from the spec's words (reference greedy word-wrap of the claim):
one folding step — append `" " + word` to the current line exactly when the
measured width of the tentative line is strictly below the budget, otherwise
push the current line and start a new line holding just that word. -/
def wrapSpecStep (m : Str → ℚ) (w : ℚ) (st : List Str × Str) (word : Str) : List Str × Str :=
  let tentative := st.2 ++ ' ' :: word
  if m tentative < w then (st.1, tentative) else (st.1 ++ [st.2], word)

/-- Modelled from the spec's words: split on single spaces, seed the current
line with the first word (empty for empty input), fold the remaining words with
`wrapSpecStep`, and push the final current line unconditionally. -/
def wrapSpec (m : Str → ℚ) (text : Str) (w : ℚ) : List Str :=
  let words := text.splitOn ' '
  let st := (words.drop 1).foldl (wrapSpecStep m w) ([], words.headD [])
  st.1 ++ [st.2]

theorem wrapTextGo_eq_foldl (m : Str → ℚ) (w : ℚ) :
    ∀ (ws : List Str) (cur : Str) (lines : List Str),
      wrapTextGo m w ws cur lines =
        (ws.foldl (wrapSpecStep m w) (lines, cur)).1 ++
          [(ws.foldl (wrapSpecStep m w) (lines, cur)).2] := by
  intro ws
  induction ws with
  | nil => intro cur lines; rfl
  | cons word rest ih =>
    intro cur lines
    simp only [wrapTextGo, List.foldl_cons, wrapSpecStep]
    by_cases h : m (cur ++ ' ' :: word) < w
    · simp only [if_pos h]; exact ih _ _
    · simp only [if_neg h]; exact ih _ _

/-- Intercalating a cons with a nonempty tail. -/
theorem intercalate_cons_of_ne_nil (x : Str) {l : List Str} (h : l ≠ []) :
    List.intercalate [' '] (x :: l) = x ++ ' ' :: List.intercalate [' '] l := by
  cases l with
  | nil => exact absurd rfl h
  | cons y t =>
    simp [List.intercalate, List.intersperse_cons_cons, List.flatten]

/-- Merging two adjacent words of one block with the space between them does not
change the flattening. -/
theorem intercalate_merge (l₁ : List Str) (a b : Str) (l₂ : List Str) :
    List.intercalate [' '] (l₁ ++ (a ++ ' ' :: b) :: l₂) =
      List.intercalate [' '] (l₁ ++ a :: b :: l₂) := by
  induction l₁ with
  | nil =>
    cases l₂ with
    | nil => simp [List.intercalate, List.intersperse]
    | cons c t =>
      rw [List.nil_append, List.nil_append,
        intercalate_cons_of_ne_nil _ (List.cons_ne_nil c t),
        intercalate_cons_of_ne_nil a (List.cons_ne_nil b (c :: t)),
        intercalate_cons_of_ne_nil b (List.cons_ne_nil c t)]
      simp [List.append_assoc]
  | cons x t ih =>
    have h₁ : t ++ (a ++ ' ' :: b) :: l₂ ≠ [] := by simp
    have h₂ : t ++ a :: b :: l₂ ≠ [] := by simp
    rw [List.cons_append, List.cons_append, intercalate_cons_of_ne_nil x h₁,
      intercalate_cons_of_ne_nil x h₂, ih]

/-- The loop never drops a word: every line list it produces flattens (with
single spaces) back to the flattening of all the words it was given. -/
theorem wrapTextGo_intercalate (m : Str → ℚ) (w : ℚ) :
    ∀ (ws : List Str) (cur : Str) (lines : List Str),
      List.intercalate [' '] (wrapTextGo m w ws cur lines) =
        List.intercalate [' '] (lines ++ cur :: ws) := by
  intro ws
  induction ws with
  | nil => intro cur lines; rfl
  | cons word rest ih =>
    intro cur lines
    simp only [wrapTextGo]
    by_cases h : m (cur ++ ' ' :: word) < w
    · simp only [if_pos h]
      rw [ih]
      exact intercalate_merge lines cur word rest
    · simp only [if_neg h]
      rw [ih]
      simp [List.append_assoc]

/-- splitOn never returns the empty list. -/
theorem splitOn_ne_nil (l : Str) : l.splitOn ' ' ≠ [] := by
  simpa [List.splitOn] using List.splitOnP_ne_nil (· == ' ') l

theorem headD_cons_drop_splitOn (l : Str) :
    (l.splitOn ' ').headD [] :: (l.splitOn ' ').drop 1 = l.splitOn ' ' := by
  cases h : l.splitOn ' ' with
  | nil => exact absurd h (splitOn_ne_nil l)
  | cons w ws => rfl

/-- Without a space in the list, no element is a space. -/
theorem no_space_of_not_includes :
    ∀ (l : Str), includesL l [' '] = false → ∀ x ∈ l, ¬ (x == ' ') = true := by
  intro l
  induction l with
  | nil => intro _ x hx; cases hx
  | cons c t ih =>
    intro h x hx
    have h2 : ((' ' == c) && true || includesL t [' ']) = false := h
    have hc : (' ' == c) = false ∧ includesL t [' '] = false := by simpa using h2
    rcases List.mem_cons.mp hx with rfl | hmem
    · have hne : x ≠ ' ' := by
        intro hxe
        subst hxe
        simp at hc
      simp [hne]
    · exact ih hc.2 x hmem

/-- A string with no space splits into itself alone. -/
theorem splitOn_of_no_space (l : Str) (h : includesL l [' '] = false) :
    l.splitOn ' ' = [l] := by
  simpa [List.splitOn] using
    List.splitOnP_eq_single (· == ' ') l (no_space_of_not_includes l h)

/-- If every width is nonnegative and the budget is not positive, the loop puts
one word per line. -/
theorem wrapTextGo_nonpos (m : Str → ℚ) (w : ℚ) (hm : ∀ s, 0 ≤ m s) (hw : w ≤ 0) :
    ∀ (ws : List Str) (cur : Str) (lines : List Str),
      wrapTextGo m w ws cur lines = lines ++ cur :: ws := by
  intro ws
  induction ws with
  | nil => intro cur lines; rfl
  | cons word rest ih =>
    intro cur lines
    have hno : ¬ m (cur ++ ' ' :: word) < w := by
      intro hlt
      exact absurd (lt_of_le_of_lt (hm _) hlt) (not_lt.mpr hw)
    simp only [wrapTextGo, if_neg hno]
    rw [ih]
    simp

/-- Claim C1: LineWrapper.wrap equals the reference greedy word-wrap of the
specification — split on single spaces, seed with the first word (empty for
empty input), append `" " + word` exactly when the measured tentative line is
strictly below maxWidth, otherwise push and restart, and push the final line
unconditionally.  In particular the wrap of the empty string is one empty line,
space-free text yields one line equal to the text, a non-positive budget yields
one word per line, and for "aa bb cc" with measured "aa bb" < W < measured
"aa bb cc" the result is ["aa bb", "cc"]. -/
theorem wrapText_matches_reference (m : Str → ℚ) (text : Str) (w : ℚ) :
    wrapText m text w = wrapSpec m text w ∧
    wrapText m [] w = [[]] ∧
    (includesL text [' '] = false → wrapText m text w = [text]) ∧
    ((∀ s, 0 ≤ m s) → w ≤ 0 → wrapText m text w = text.splitOn ' ') ∧
    (m ("aa bb".data) < w → w < m ("aa bb cc".data) →
      wrapText m ("aa bb cc".data) w = ["aa bb".data, "cc".data]) := by
  refine ⟨?_, rfl, ?_, ?_, ?_⟩
  · unfold wrapText wrapSpec
    exact wrapTextGo_eq_foldl m w _ _ _
  · intro h
    unfold wrapText
    rw [splitOn_of_no_space text h]
    rfl
  · intro hm hw
    unfold wrapText
    rw [wrapTextGo_nonpos m w hm hw]
    rw [List.nil_append, headD_cons_drop_splitOn]
  · intro h₁ h₂
    have hsplit : ("aa bb cc".data).splitOn ' ' = ["aa".data, "bb".data, "cc".data] := by
      decide
    have hno : ¬ m ("aa bb cc".data) < w := not_lt.mpr (le_of_lt h₂)
    unfold wrapText
    rw [hsplit]
    show wrapTextGo m w ["bb".data, "cc".data] ("aa".data) [] = _
    have t1 : ("aa".data ++ ' ' :: "bb".data) = "aa bb".data := by decide
    have t2 : ("aa bb".data ++ ' ' :: "cc".data) = "aa bb cc".data := by decide
    simp only [wrapTextGo, t1, t2, if_pos h₁, if_neg hno]
    rfl

/-- A concrete measurer: width is the number of characters. -/
def lenQ : Str → ℚ := fun s => (s.length : ℚ)

/-- Witness for C1: with the character-count measurer, budget 6 on "aa bb cc"
gives ["aa bb", "cc"], the empty string gives one empty line, "xy" stays one
line, and a budget of -1 puts one word per line of "a b". -/
theorem wrapText_matches_reference_witness :
    wrapText lenQ ("aa bb cc".data) 6 = wrapSpec lenQ ("aa bb cc".data) 6 ∧
    wrapText lenQ [] 6 = [[]] ∧
    wrapText lenQ ("xy".data) 6 = ["xy".data] ∧
    wrapText lenQ ("a b".data) (-1) = ("a b".data).splitOn ' ' ∧
    wrapText lenQ ("aa bb cc".data) 6 = ["aa bb".data, "cc".data] := by
  refine ⟨(wrapText_matches_reference lenQ ("aa bb cc".data) 6).1,
    (wrapText_matches_reference lenQ [] 6).2.1,
    (wrapText_matches_reference lenQ ("xy".data) 6).2.2.1 (by decide),
    (wrapText_matches_reference lenQ ("a b".data) (-1)).2.2.2.1
      (fun s => by simp [lenQ]) (by norm_num),
    (wrapText_matches_reference lenQ ("aa bb cc".data) 6).2.2.2.2 (by decide) (by decide)⟩

/-- Claim C10: wrapping never loses, duplicates or reorders content — joining
the wrapped lines with single spaces reproduces the input text exactly. -/
theorem wrapText_content_preserved (m : Str → ℚ) (text : Str) (w : ℚ) :
    List.intercalate [' '] (wrapText m text w) = text := by
  unfold wrapText
  rw [wrapTextGo_intercalate]
  rw [List.nil_append, headD_cons_drop_splitOn]
  exact List.intercalate_splitOn text ' '

/-!  ### Data model and drawing surface

The canvas 2D context is modelled as a state record carrying the settable
drawing attributes and the ordered trace of draw calls issued so far.  A font
is the pair (size, family), standing for the string `px ` interpolation of the
source.  Colors, alignment keywords and font family names stay uninterpreted strings.
-/

/-- A font: the `px ` font string of the source, as a (size, family) pair. -/
abbrev Font := ℚ × String

/-- One draw call issued against the surface, with the attribute values that
were current at the moment of the call. -/
inductive DrawEvent where
  | fillRect (fillStyle : String) (filter : Option ℚ) (x y w h : ℚ)
  | strokeRect (strokeStyle : String) (lineWidth : ℚ) (x y w h : ℚ)
  | fillText (font : Font) (fillStyle : String) (textAlign : String)
      (textBaseline : String) (text : Str) (x y : ℚ)
  | drawImage (image : String) (x y w h : ℚ)
  deriving DecidableEq

/-- The canvas 2D context: settable attributes plus the event trace. -/
structure Ctx where
  font : Font := (10, "sans-serif")
  fillStyle : String := "#000000"
  strokeStyle : String := "#000000"
  lineWidth : ℚ := 1
  textAlign : String := "start"
  textBaseline : String := "alphabetic"
  filter : Option ℚ := none
  events : List DrawEvent := []
  deriving DecidableEq

def Ctx.fillRect (ctx : Ctx) (x y w h : ℚ) : Ctx :=
  { ctx with events := ctx.events ++ [DrawEvent.fillRect ctx.fillStyle ctx.filter x y w h] }

def Ctx.strokeRect (ctx : Ctx) (x y w h : ℚ) : Ctx :=
  { ctx with events := ctx.events ++ [DrawEvent.strokeRect ctx.strokeStyle ctx.lineWidth x y w h] }

def Ctx.fillText (ctx : Ctx) (t : Str) (x y : ℚ) : Ctx :=
  { ctx with events := ctx.events ++
      [DrawEvent.fillText ctx.font ctx.fillStyle ctx.textAlign ctx.textBaseline t x y] }

def Ctx.drawImage (ctx : Ctx) (img : String) (x y w h : ℚ) : Ctx :=
  { ctx with events := ctx.events ++ [DrawEvent.drawImage img x y w h] }

/-- The measurement collaborator: `(font, s) ↦ ctx.measureText(s).width` with
`ctx.font = font`. -/
abbrev TextMeasurer := Font → Str → ℚ

/-- interface TextLayout of the source (x, y, width, height, fontSize,
fontFamily, color, align, and the optional maxWidth, lineHeight, padding,
backgroundColor, backgroundBlur). -/
structure TextLayout where
  x : ℚ
  y : ℚ
  width : ℚ
  height : ℚ
  fontSize : ℚ
  fontFamily : String
  color : String
  align : String
  maxWidth : Option ℚ := none
  lineHeight : Option ℚ := none
  padding : Option ℚ := none
  backgroundColor : Option String := none
  backgroundBlur : Option ℚ := none
  deriving DecidableEq

/-- interface CardLayout of the source. -/
structure CardLayout where
  name : TextLayout
  cost : TextLayout
  lore : TextLayout
  attack : TextLayout
  armor : TextLayout
  skills : TextLayout
  deriving DecidableEq

/-- interface CardData of the source (all fields are strings of the record). -/
structure CardData where
  Card : Str
  Name : Str
  Element : Str
  Cost : Str
  Lore : Str
  Attack : Str
  Armor : Str
  Skills : Str
  Address : Str
  deriving DecidableEq

/-- The CardGenerator class: its resolved config fields and the process-wide
set of successfully loaded font families. -/
structure CardGenerator where
  templatesPath : String
  cardWidth : ℚ
  cardHeight : ℚ
  cardArtX : ℚ
  cardArtY : ℚ
  cardArtWidth : ℚ
  cardArtHeight : ℚ
  backgroundColor : String
  loadedFonts : List String
  layout : CardLayout
  deriving DecidableEq

/-!  ### AnchorResolver (source lines 322-363) -/

/-- getTextPosition: the nine-way switch on the alignment keyword, with the
default arm returning the rect center. -/
def getTextPosition (layout : TextLayout) : ℚ × ℚ :=
  if layout.align = "top-left" then (layout.x, layout.y)
  else if layout.align = "top-center" then (layout.x + layout.width / 2, layout.y)
  else if layout.align = "top-right" then (layout.x + layout.width, layout.y)
  else if layout.align = "left" then (layout.x, layout.y + layout.height / 2)
  else if layout.align = "center" then
    (layout.x + layout.width / 2, layout.y + layout.height / 2)
  else if layout.align = "right" then (layout.x + layout.width, layout.y + layout.height / 2)
  else if layout.align = "bottom-left" then (layout.x, layout.y + layout.height)
  else if layout.align = "bottom-center" then
    (layout.x + layout.width / 2, layout.y + layout.height)
  else if layout.align = "bottom-right" then (layout.x + layout.width, layout.y + layout.height)
  else (layout.x + layout.width / 2, layout.y + layout.height / 2)

/-- getCanvasTextAlign: substring matching on the keyword. -/
def getCanvasTextAlign (align : String) : String :=
  if includesStr align "left" then "left"
  else if includesStr align "right" then "right"
  else "center"

/-- getCanvasTextBaseline: substring matching on the keyword. -/
def getCanvasTextBaseline (align : String) : String :=
  if includesStr align "top" then "top"
  else if includesStr align "bottom" then "bottom"
  else "middle"

/-!  ### BlockRenderer (source lines 365-489) -/

/-- drawBoundingBox (debug only, source lines 365-387). -/
def drawBoundingBox (gen : CardGenerator) (ctx : Ctx) (layout : TextLayout)
    (color : String) (label : String) : Ctx :=
  let ctx1 := { ctx with fillStyle := color }
  let ctx2 := ctx1.fillRect layout.x layout.y layout.width layout.height
  let ctx3 := { ctx2 with strokeStyle := replaceStr color "0.3" "0.8", lineWidth := 2 }
  let ctx4 := ctx3.strokeRect layout.x layout.y layout.width layout.height
  let ctx5 := { ctx4 with fillStyle := replaceStr color "0.3" "0.9", font := (14, "Arial"),
                          textAlign := "left", textBaseline := "top" }
  let fontStatus := if gen.loadedFonts.contains layout.fontFamily then "✓" else "✗"
  let labelText := label ++ " (" ++ layout.fontFamily ++ " " ++ fontStatus ++ ")"
  ctx5.fillText labelText.data (layout.x + 4) (layout.y + 16)

/-- drawTextBackground (source lines 389-406): save, set fillStyle (and the
blur filter when backgroundBlur > 0), fill the un-inset rect, restore. -/
def drawTextBackground (ctx : Ctx) (layout : TextLayout) : Ctx :=
  match layout.backgroundColor with
  | none => ctx
  | some bc =>
    if bc.isEmpty then ctx
    else
      let saved := ctx
      let ctx1 := { ctx with fillStyle := bc }
      let ctx2 := match layout.backgroundBlur with
        | some b => if 0 < b then { ctx1 with filter := some b } else ctx1
        | none => ctx1
      let ctx3 := ctx2.fillRect layout.x layout.y layout.width layout.height
      { saved with events := ctx3.events }

/-- The font family actually used: the declared one if loaded, else Arial
(source lines 423-425). -/
def resolvedFamily (gen : CardGenerator) (layout : TextLayout) : String :=
  if gen.loadedFonts.contains layout.fontFamily then layout.fontFamily else "Arial"

/-- The padding-inset layout (source lines 452-460): x+p, y+p, width-2p,
height-2p, all other fields copied, no clamping. -/
def paddedLayoutOf (layout : TextLayout) : TextLayout :=
  let padding := layout.padding.getD 0
  { layout with x := layout.x + padding, y := layout.y + padding,
                width := layout.width - padding * 2, height := layout.height - padding * 2 }

/-- The wrap-branch condition of drawText (source line 465):
`layout.maxWidth || text.includes(" ")` under JS truthiness. -/
def wrapCond (layout : TextLayout) (text : Str) : Bool :=
  jsTruthy layout.maxWidth || includesL text [' ']

/-- The line height (source line 467): `layout.lineHeight || fontSize * 1.2`. -/
def lineHeightOf (layout : TextLayout) : ℚ :=
  jsOrNum layout.lineHeight (layout.fontSize * 1.2)

/-- The first-line y adjustment (source lines 469-480), from the padded layout,
the anchor, the number of lines and the line height. -/
def startYOf (padded : TextLayout) (position : ℚ × ℚ) (n L : ℚ) : ℚ :=
  if includesStr padded.align "bottom" then position.2 - n * L + L
  else if padded.align = "center" || padded.align = "left" || padded.align = "right" then
    position.2 - n * L / 2 + L / 2
  else position.2

/-- drawText (source lines 408-489). -/
def drawText (gen : CardGenerator) (measure : TextMeasurer) (ctx : Ctx) (text : Str)
    (layout : TextLayout) (debugMode : Bool) (debugColor : Option String)
    (debugLabel : Option String) : Ctx :=
  let ctx1 := drawTextBackground ctx layout
  let ctx2 := if debugMode && strTruthy debugColor && strTruthy debugLabel then
      drawBoundingBox gen ctx1 layout (debugColor.getD "") (debugLabel.getD "")
    else ctx1
  let fs : Font := (layout.fontSize, resolvedFamily gen layout)
  let ctx3 := { ctx2 with font := fs, fillStyle := layout.color,
                          textAlign := getCanvasTextAlign layout.align,
                          textBaseline := getCanvasTextBaseline layout.align }
  let paddedLayout := paddedLayoutOf layout
  let position := getTextPosition paddedLayout
  let maxWidth := jsOrNum paddedLayout.maxWidth paddedLayout.width
  if wrapCond layout text then
    let lines := wrapText (measure ctx3.font) text maxWidth
    let lineHeight := lineHeightOf layout
    let startY := startYOf paddedLayout position (lines.length : ℚ) lineHeight
    (lines.enum).foldl
      (fun c iw => c.fillText iw.2 position.1 (startY + (iw.1 : ℚ) * lineHeight)) ctx3
  else
    ctx3.fillText text position.1 position.2

/-!  ### Specification views of drawText's trace -/

/-- The blur value active during the background fill: the block's blur when
positive, otherwise whatever filter the context carried. -/
def bgFilterOf (filt : Option ℚ) (layout : TextLayout) : Option ℚ :=
  match layout.backgroundBlur with
  | some b => if 0 < b then some b else filt
  | none => filt

/-- The events drawTextBackground appends. -/
def bgEventsOf (filt : Option ℚ) (layout : TextLayout) : List DrawEvent :=
  match layout.backgroundColor with
  | none => []
  | some bc =>
    if bc.isEmpty then []
    else [DrawEvent.fillRect bc (bgFilterOf filt layout) layout.x layout.y
            layout.width layout.height]

/-- The text events drawText appends after the background (no debug overlay). -/
def textEventsOf (gen : CardGenerator) (measure : TextMeasurer) (text : Str)
    (layout : TextLayout) : List DrawEvent :=
  let fs : Font := (layout.fontSize, resolvedFamily gen layout)
  let ta := getCanvasTextAlign layout.align
  let tb := getCanvasTextBaseline layout.align
  let padded := paddedLayoutOf layout
  let position := getTextPosition padded
  let maxWidth := jsOrNum padded.maxWidth padded.width
  if wrapCond layout text then
    let lines := wrapText (measure fs) text maxWidth
    let lineHeight := lineHeightOf layout
    let startY := startYOf padded position (lines.length : ℚ) lineHeight
    (lines.enum).map (fun iw => DrawEvent.fillText fs layout.color ta tb iw.2 position.1
      (startY + (iw.1 : ℚ) * lineHeight))
  else [DrawEvent.fillText fs layout.color ta tb text position.1 position.2]

theorem drawTextBackground_eq (ctx : Ctx) (layout : TextLayout) :
    drawTextBackground ctx layout = { ctx with events := ctx.events ++ bgEventsOf ctx.filter layout } := by
  unfold drawTextBackground bgEventsOf bgFilterOf
  cases hbc : layout.backgroundColor with
  | none => simp
  | some bc =>
    by_cases hbe : bc.isEmpty
    · simp [hbe]
    · simp only [hbe, if_neg, Bool.false_eq_true, if_false]
      cases hbb : layout.backgroundBlur with
      | none => simp [Ctx.fillRect]
      | some b =>
        by_cases hb : 0 < b
        · simp [hb, Ctx.fillRect]
        · simp [hb, Ctx.fillRect]

theorem fillText_foldl (l : List (Nat × Str)) (px : ℚ) (g : Nat × Str → ℚ) (ctx : Ctx) :
    l.foldl (fun c iw => Ctx.fillText c iw.2 px (g iw)) ctx =
      { ctx with events := ctx.events ++ l.map (fun iw =>
          DrawEvent.fillText ctx.font ctx.fillStyle ctx.textAlign ctx.textBaseline
            iw.2 px (g iw)) } := by
  induction l generalizing ctx with
  | nil => simp
  | cons iw t ih =>
    simp only [List.foldl_cons, List.map_cons]
    rw [ih]
    simp [Ctx.fillText]

/-- drawText with the debug overlay off: it sets the font to the resolved
family, color, alignment and baseline from the block spec, and appends the
background fill (un-inset rect) followed by the text events computed against
the padded layout. -/
theorem drawText_false_eq (gen : CardGenerator) (measure : TextMeasurer) (ctx : Ctx)
    (text : Str) (layout : TextLayout) (dc dl : Option String) :
    drawText gen measure ctx text layout false dc dl =
      { ctx with font := (layout.fontSize, resolvedFamily gen layout),
                 fillStyle := layout.color,
                 textAlign := getCanvasTextAlign layout.align,
                 textBaseline := getCanvasTextBaseline layout.align,
                 events := ctx.events ++ bgEventsOf ctx.filter layout ++
                   textEventsOf gen measure text layout } := by
  unfold drawText textEventsOf
  rw [drawTextBackground_eq]
  simp only [Bool.false_and, Bool.and_eq_true, Bool.false_eq_true, if_false]
  by_cases hw : wrapCond layout text
  · simp only [hw, if_true]
    rw [fillText_foldl]
  · simp only [hw, Bool.false_eq_true, if_false]
    simp [Ctx.fillText, List.append_assoc]

/-!  ### CardComposer (source lines 491-643) -/

/-- getTemplatePathForElement (source lines 187-191): capitalize the element
name and point into the templates directory. -/
def capitalizeElement (element : Str) : Str :=
  match element with
  | [] => []
  | c :: t => c.toUpper :: t.map Char.toLower

def getTemplatePathForElement (gen : CardGenerator) (element : Str) : String :=
  gen.templatesPath ++ "/" ++ String.mk (capitalizeElement element) ++ ".png"

/-- getImageUrlFromAddress (source lines 193-195). -/
def getImageUrlFromAddress (address : Str) : String :=
  "https://beetle-game.s3.us-east-1.amazonaws.com/images/" ++ String.mk address ++ ".png"

/-- drawCardArt (source lines 491-559).  The artwork resolver stands for
`loadImage`; on failure the catch block paints the placeholder rectangle and
the "Image Not Found" caption at the configured artwork rect. -/
def drawCardArt (gen : CardGenerator) (art : String → Option String) (imagePath : String)
    (ctx : Ctx) (debugMode : Bool) : Ctx :=
  match art imagePath with
  | some image =>
    let ctx1 := ctx.drawImage image gen.cardArtX gen.cardArtY gen.cardArtWidth gen.cardArtHeight
    if debugMode then
      let ctx2 := { ctx1 with strokeStyle := "rgba(0, 255, 0, 0.8)", lineWidth := 3 }
      let ctx3 := ctx2.strokeRect gen.cardArtX gen.cardArtY gen.cardArtWidth gen.cardArtHeight
      let ctx4 := { ctx3 with fillStyle := "rgba(0, 255, 0, 0.9)", font := (16, "Arial"),
                              textAlign := "left", textBaseline := "top" }
      ctx4.fillText ("Card Art".data) (gen.cardArtX + 4) (gen.cardArtY + 20)
    else ctx1
  | none =>
    let ctx1 := { ctx with fillStyle := "#ccc" }
    let ctx2 := ctx1.fillRect gen.cardArtX gen.cardArtY gen.cardArtWidth gen.cardArtHeight
    let ctx3 := { ctx2 with fillStyle := "#666", font := (16, "Stone Serif Semibold"),
                            textAlign := "center", textBaseline := "middle" }
    let ctx4 := ctx3.fillText ("Image Not Found".data)
        (gen.cardArtX + gen.cardArtWidth / 2) (gen.cardArtY + gen.cardArtHeight / 2)
    if debugMode then
      let ctx5 := { ctx4 with strokeStyle := "rgba(255, 0, 0, 0.8)", lineWidth := 3 }
      ctx5.strokeRect gen.cardArtX gen.cardArtY gen.cardArtWidth gen.cardArtHeight
    else ctx4

/-- drawElementTemplate (source lines 561-583): on failure only a warning is
logged and the flat background is kept. -/
def drawElementTemplate (gen : CardGenerator) (tpl : String → Option String)
    (ctx : Ctx) (element : Str) : Ctx :=
  match tpl (getTemplatePathForElement gen element) with
  | some t => ctx.drawImage t 0 0 gen.cardWidth gen.cardHeight
  | none => ctx

/-- One iteration of the text-mapping loop of generateCard (source lines
626-640): skip empty values, otherwise delegate to drawText. -/
def drawField (gen : CardGenerator) (measure : TextMeasurer) (debugMode : Bool)
    (ctx : Ctx) (value : Str) (layout : TextLayout) (debugColor : String)
    (debugLabel : String) : Ctx :=
  if value.isEmpty then ctx
  else drawText gen measure ctx value layout debugMode (some debugColor) (some debugLabel)

/-- generateCard (source lines 596-643): flat background fill, element
template, card art, then the six text blocks in their fixed order. -/
def generateCard (gen : CardGenerator) (tpl art : String → Option String)
    (measure : TextMeasurer) (card : CardData) (debugMode : Bool) : Ctx :=
  let ctx0 : Ctx := {}
  let ctx1 := { ctx0 with fillStyle := gen.backgroundColor }
  let ctx2 := ctx1.fillRect 0 0 gen.cardWidth gen.cardHeight
  let ctx3 := if card.Element.isEmpty then ctx2
    else drawElementTemplate gen tpl ctx2 card.Element
  let ctx4 := if card.Address.isEmpty then ctx3
    else drawCardArt gen art (getImageUrlFromAddress card.Address) ctx3 debugMode
  let ctx5 := drawField gen measure debugMode ctx4 card.Name gen.layout.name
    "rgba(255, 0, 0, 0.3)" "name"
  let ctx6 := drawField gen measure debugMode ctx5 card.Cost gen.layout.cost
    "rgba(0, 255, 0, 0.3)" "cost"
  let ctx7 := drawField gen measure debugMode ctx6 card.Lore gen.layout.lore
    "rgba(0, 0, 255, 0.3)" "lore"
  let ctx8 := drawField gen measure debugMode ctx7 card.Attack gen.layout.attack
    "rgba(255, 255, 0, 0.3)" "attack"
  let ctx9 := drawField gen measure debugMode ctx8 card.Armor gen.layout.armor
    "rgba(255, 0, 255, 0.3)" "armor"
  drawField gen measure debugMode ctx9 card.Skills gen.layout.skills
    "rgba(255, 128, 0, 0.3)" "skills"

/-- The events one field contributes (debug overlay off). -/
def fieldEventsOf (gen : CardGenerator) (measure : TextMeasurer) (filt : Option ℚ)
    (value : Str) (layout : TextLayout) : List DrawEvent :=
  if value.isEmpty then []
  else bgEventsOf filt layout ++ textEventsOf gen measure value layout

/-- The events of the whole text-block pass of generateCard on a context whose
filter is unset (debug overlay off). -/
def fieldsEventsOf (gen : CardGenerator) (measure : TextMeasurer) (card : CardData) :
    List DrawEvent :=
  fieldEventsOf gen measure none card.Name gen.layout.name ++
  fieldEventsOf gen measure none card.Cost gen.layout.cost ++
  fieldEventsOf gen measure none card.Lore gen.layout.lore ++
  fieldEventsOf gen measure none card.Attack gen.layout.attack ++
  fieldEventsOf gen measure none card.Armor gen.layout.armor ++
  fieldEventsOf gen measure none card.Skills gen.layout.skills

theorem drawField_events (gen : CardGenerator) (measure : TextMeasurer) (ctx : Ctx)
    (value : Str) (layout : TextLayout) (dc dl : String) :
    (drawField gen measure false ctx value layout dc dl).events =
      ctx.events ++ fieldEventsOf gen measure ctx.filter value layout := by
  unfold drawField fieldEventsOf
  by_cases h : value.isEmpty
  · simp [h]
  · simp only [h, Bool.false_eq_true, if_false]
    rw [drawText_false_eq]
    simp [List.append_assoc]

theorem drawField_filter (gen : CardGenerator) (measure : TextMeasurer) (ctx : Ctx)
    (value : Str) (layout : TextLayout) (dc dl : String) :
    (drawField gen measure false ctx value layout dc dl).filter = ctx.filter := by
  unfold drawField
  by_cases h : value.isEmpty
  · simp [h]
  · simp only [h, Bool.false_eq_true, if_false]
    rw [drawText_false_eq]

/-!  ### Claims about the anchor resolver -/

/-- The nine documented alignment keywords. -/
def nineAlignments : List String :=
  ["top-left", "top-center", "top-right", "left", "center", "right",
   "bottom-left", "bottom-center", "bottom-right"]

/-- A layout rect with a given alignment (the style fields are irrelevant to
anchor resolution). -/
def mkRectLayout (x y w h : ℚ) (align : String) : TextLayout :=
  { x := x, y := y, width := w, height := h, fontSize := 0, fontFamily := "",
    color := "", align := align }

/-- Claim C4: for every rect and each of the nine alignment keywords, the
anchor resolver returns exactly the documented (anchor, h-mode, v-mode)
triple. -/
theorem anchor_table_nine (x y w h : ℚ) :
    (getTextPosition (mkRectLayout x y w h "top-left") = (x, y) ∧
      getCanvasTextAlign "top-left" = "left" ∧ getCanvasTextBaseline "top-left" = "top") ∧
    (getTextPosition (mkRectLayout x y w h "top-center") = (x + w / 2, y) ∧
      getCanvasTextAlign "top-center" = "center" ∧ getCanvasTextBaseline "top-center" = "top") ∧
    (getTextPosition (mkRectLayout x y w h "top-right") = (x + w, y) ∧
      getCanvasTextAlign "top-right" = "right" ∧ getCanvasTextBaseline "top-right" = "top") ∧
    (getTextPosition (mkRectLayout x y w h "left") = (x, y + h / 2) ∧
      getCanvasTextAlign "left" = "left" ∧ getCanvasTextBaseline "left" = "middle") ∧
    (getTextPosition (mkRectLayout x y w h "center") = (x + w / 2, y + h / 2) ∧
      getCanvasTextAlign "center" = "center" ∧ getCanvasTextBaseline "center" = "middle") ∧
    (getTextPosition (mkRectLayout x y w h "right") = (x + w, y + h / 2) ∧
      getCanvasTextAlign "right" = "right" ∧ getCanvasTextBaseline "right" = "middle") ∧
    (getTextPosition (mkRectLayout x y w h "bottom-left") = (x, y + h) ∧
      getCanvasTextAlign "bottom-left" = "left" ∧
      getCanvasTextBaseline "bottom-left" = "bottom") ∧
    (getTextPosition (mkRectLayout x y w h "bottom-center") = (x + w / 2, y + h) ∧
      getCanvasTextAlign "bottom-center" = "center" ∧
      getCanvasTextBaseline "bottom-center" = "bottom") ∧
    (getTextPosition (mkRectLayout x y w h "bottom-right") = (x + w, y + h) ∧
      getCanvasTextAlign "bottom-right" = "right" ∧
      getCanvasTextBaseline "bottom-right" = "bottom") := by
  refine ⟨⟨rfl, by decide, by decide⟩, ⟨rfl, by decide, by decide⟩,
    ⟨rfl, by decide, by decide⟩, ⟨rfl, by decide, by decide⟩,
    ⟨rfl, by decide, by decide⟩, ⟨rfl, by decide, by decide⟩,
    ⟨rfl, by decide, by decide⟩, ⟨rfl, by decide, by decide⟩,
    ⟨rfl, by decide, by decide⟩⟩

/-- Counterexample to claim C5 as stated: "lefty" is not one of the nine
documented keywords, yet the resolver does not return full center semantics —
the horizontal mode is computed by substring matching and yields "left". -/
theorem anchor_fallback_cex :
    ¬ ("lefty" ∈ nineAlignments) ∧ getCanvasTextAlign "lefty" = "left" ∧
      getCanvasTextAlign "lefty" ≠ "center" := by
  refine ⟨by decide, by decide, by decide⟩

/-- Claim C5, amended: for every alignment string that is not one of the nine
documented keywords the anchor point falls back to the rect center and the
resolver never fails; but the modes are computed by substring matching, so they
fall back to "center"/"middle" only when the string contains none of the
substrings "left"/"right" (resp. "top"/"bottom"). -/
theorem anchor_fallback_amended (x y w h : ℚ) (a : String) (h9 : ¬ a ∈ nineAlignments) :
    getTextPosition (mkRectLayout x y w h a) = (x + w / 2, y + h / 2) ∧
    (includesStr a "left" = false → includesStr a "right" = false →
      getCanvasTextAlign a = "center") ∧
    (includesStr a "top" = false → includesStr a "bottom" = false →
      getCanvasTextBaseline a = "middle") := by
  simp only [nineAlignments, List.mem_cons, List.not_mem_nil, or_false, not_or] at h9
  obtain ⟨h1, h2, h3, h4, h5, h6, h7, h8, h9'⟩ := h9
  refine ⟨?_, ?_, ?_⟩
  · unfold getTextPosition
    simp only [mkRectLayout]
    rw [if_neg h1, if_neg h2, if_neg h3, if_neg h4, if_neg h5, if_neg h6,
      if_neg h7, if_neg h8, if_neg h9']
  · intro hl hr
    unfold getCanvasTextAlign
    rw [hl, hr]
    rfl
  · intro ht hb
    unfold getCanvasTextBaseline
    rw [ht, hb]
    rfl

/-- Witness for the amended C5: the unrecognized keyword "weird" resolves to
the full center triple on the rect (1, 2) × (3, 4). -/
theorem anchor_fallback_amended_witness :
    getTextPosition (mkRectLayout 1 2 3 4 "weird") = (1 + 3 / 2, 2 + 4 / 2) ∧
    getCanvasTextAlign "weird" = "center" ∧
    getCanvasTextBaseline "weird" = "middle" := by
  obtain ⟨hp, hha, hvb⟩ := anchor_fallback_amended 1 2 3 4 "weird" (by decide)
  exact ⟨hp, hha (by decide) (by decide), hvb (by decide) (by decide)⟩

/-!  ### Claims about the block renderer -/

/-- The text carried by a text-draw event. -/
def DrawEvent.textOf : DrawEvent → Str
  | .fillText _ _ _ _ t _ _ => t
  | _ => []

/-- The font carried by a text-draw event. -/
def eventFontOf : DrawEvent → Option Font
  | .fillText f _ _ _ _ _ _ => some f
  | _ => none

theorem enumFrom_map_snd (n : Nat) (l : List Str) :
    ((List.enumFrom n l).map Prod.snd) = l := by
  induction l generalizing n with
  | nil => rfl
  | cons a t ih => simp [List.enumFrom, ih]

theorem paddedLayoutOf_align (layout : TextLayout) :
    (paddedLayoutOf layout).align = layout.align := rfl

theorem paddedLayoutOf_maxWidth (layout : TextLayout) :
    (paddedLayoutOf layout).maxWidth = layout.maxWidth := rfl

/-- Every event of the text pass is a text draw anchored horizontally at the
padded layout's anchor x. -/
theorem textEventsOf_shape (gen : CardGenerator) (measure : TextMeasurer) (text : Str)
    (layout : TextLayout) :
    ∀ e ∈ textEventsOf gen measure text layout, ∃ f fst ta tb t yy,
      e = DrawEvent.fillText f fst ta tb t (getTextPosition (paddedLayoutOf layout)).1 yy := by
  unfold textEventsOf
  by_cases hw : wrapCond layout text
  · simp only [hw, if_true]
    intro e he
    rw [List.mem_map] at he
    obtain ⟨iw, _, rfl⟩ := he
    exact ⟨_, _, _, _, _, _, rfl⟩
  · simp only [hw, Bool.false_eq_true, if_false]
    intro e he
    rw [List.mem_singleton] at he
    subst he
    exact ⟨_, _, _, _, _, _, rfl⟩

/-- In the wrapping branch, the texts drawn are exactly the wrapped lines,
measured at the resolved font against the padded width fallback. -/
theorem textEventsOf_texts (gen : CardGenerator) (measure : TextMeasurer) (text : Str)
    (layout : TextLayout) (hw : wrapCond layout text = true) :
    (textEventsOf gen measure text layout).map DrawEvent.textOf =
      wrapText (measure (layout.fontSize, resolvedFamily gen layout)) text
        (jsOrNum layout.maxWidth (paddedLayoutOf layout).width) := by
  unfold textEventsOf
  simp only [hw, if_true, paddedLayoutOf_maxWidth]
  rw [List.map_map]
  have : (DrawEvent.textOf ∘ fun iw : Nat × Str =>
      DrawEvent.fillText (layout.fontSize, resolvedFamily gen layout) layout.color
        (getCanvasTextAlign layout.align) (getCanvasTextBaseline layout.align) iw.2
        (getTextPosition (paddedLayoutOf layout)).1
        (startYOf (paddedLayoutOf layout) (getTextPosition (paddedLayoutOf layout))
          ((wrapText (measure (layout.fontSize, resolvedFamily gen layout)) text
            (jsOrNum layout.maxWidth (paddedLayoutOf layout).width)).length : ℚ)
          (lineHeightOf layout) + (iw.1 : ℚ) * lineHeightOf layout)) =
      (fun iw : Nat × Str => iw.2) := by
    funext iw
    rfl
  rw [this]
  rw [List.enum]
  exact enumFrom_map_snd 0 _

/-- Every event of the text pass carries the resolved font. -/
theorem textEventsOf_font (gen : CardGenerator) (measure : TextMeasurer) (text : Str)
    (layout : TextLayout) :
    ∀ e ∈ textEventsOf gen measure text layout,
      eventFontOf e = some (layout.fontSize, resolvedFamily gen layout) := by
  intro e he
  unfold textEventsOf at he
  by_cases hw : wrapCond layout text
  · simp only [hw, if_true] at he
    rw [List.mem_map] at he
    obtain ⟨iw, _, rfl⟩ := he
    rfl
  · simp only [hw, Bool.false_eq_true, if_false, List.mem_singleton] at he
    subst he
    rfl

/-- Claim C2: with padding p > 0 the anchor resolution and wrapping of a block
are performed against the inset rect (x+p, y+p, w-2p, h-2p) — with no clamp
when the inset dimensions go negative — while the background fill for the same
block still covers the original, un-inset rect. -/
theorem drawText_padding_inset (gen : CardGenerator) (measure : TextMeasurer) (ctx : Ctx)
    (text : Str) (layout : TextLayout) (p : ℚ) (bc : String)
    (hp : layout.padding = some p) (hpos : 0 < p)
    (hbc : layout.backgroundColor = some bc) (hbe : bc.isEmpty = false) :
    (paddedLayoutOf layout).x = layout.x + p ∧
    (paddedLayoutOf layout).y = layout.y + p ∧
    (paddedLayoutOf layout).width = layout.width - 2 * p ∧
    (paddedLayoutOf layout).height = layout.height - 2 * p ∧
    (drawText gen measure ctx text layout false none none).events =
      ctx.events ++
        DrawEvent.fillRect bc (bgFilterOf ctx.filter layout) layout.x layout.y
          layout.width layout.height ::
        textEventsOf gen measure text layout ∧
    (∀ e ∈ textEventsOf gen measure text layout, ∃ f fst ta tb t yy,
      e = DrawEvent.fillText f fst ta tb t (getTextPosition (paddedLayoutOf layout)).1 yy) ∧
    (wrapCond layout text = true →
      (textEventsOf gen measure text layout).map DrawEvent.textOf =
        wrapText (measure (layout.fontSize, resolvedFamily gen layout)) text
          (jsOrNum layout.maxWidth (paddedLayoutOf layout).width)) := by
  refine ⟨?_, ?_, ?_, ?_, ?_, textEventsOf_shape gen measure text layout,
    textEventsOf_texts gen measure text layout⟩
  · simp [paddedLayoutOf, hp]
  · simp [paddedLayoutOf, hp]
  · simp [paddedLayoutOf, hp]; ring
  · simp [paddedLayoutOf, hp]; ring
  · rw [drawText_false_eq]
    simp only [bgEventsOf, hbc, hbe, Bool.false_eq_true, if_false]
    simp [List.append_assoc]

/-- A concrete measurer for witnesses: width is the character count. -/
def mFix : TextMeasurer := fun _ s => (s.length : ℚ)

/-- A baseline block spec for witnesses. -/
def defaultLayoutC : TextLayout :=
  { x := 0, y := 0, width := 100, height := 50, fontSize := 10, fontFamily := "F",
    color := "#000", align := "center" }

/-- A concrete generator for witnesses: no fonts loaded. -/
def gen0 : CardGenerator :=
  { templatesPath := "./assets", cardWidth := 750, cardHeight := 1050, cardArtX := 75,
    cardArtY := 120, cardArtWidth := 600, cardArtHeight := 400,
    backgroundColor := "#ffffff", loadedFonts := [],
    layout := { name := defaultLayoutC, cost := defaultLayoutC, lore := defaultLayoutC,
                attack := defaultLayoutC, armor := defaultLayoutC, skills := defaultLayoutC } }

/-- A padded block spec whose inset width is negative (width 4, padding 5). -/
def layoutPad : TextLayout :=
  { defaultLayoutC with
    width := 4, padding := some 5,
    backgroundColor := some "rgba(0, 0, 0, 0.2)", backgroundBlur := some 8 }

/-- Witness for C2 at a block whose inset width is negative. -/
theorem drawText_padding_inset_witness :
    (paddedLayoutOf layoutPad).x = layoutPad.x + 5 ∧
    (paddedLayoutOf layoutPad).y = layoutPad.y + 5 ∧
    (paddedLayoutOf layoutPad).width = layoutPad.width - 2 * 5 ∧
    (paddedLayoutOf layoutPad).height = layoutPad.height - 2 * 5 ∧
    (drawText gen0 mFix {} ("a b".data) layoutPad false none none).events =
      ({} : Ctx).events ++
        DrawEvent.fillRect "rgba(0, 0, 0, 0.2)" (bgFilterOf (({} : Ctx).filter) layoutPad)
          layoutPad.x layoutPad.y layoutPad.width layoutPad.height ::
        textEventsOf gen0 mFix ("a b".data) layoutPad ∧
    (textEventsOf gen0 mFix ("a b".data) layoutPad).map DrawEvent.textOf =
      wrapText (mFix (layoutPad.fontSize, resolvedFamily gen0 layoutPad)) ("a b".data)
        (jsOrNum layoutPad.maxWidth (paddedLayoutOf layoutPad).width) := by
  obtain ⟨h1, h2, h3, h4, h5, _, h7⟩ :=
    drawText_padding_inset gen0 mFix {} ("a b".data) layoutPad 5 "rgba(0, 0, 0, 0.2)"
      rfl (by norm_num) rfl (by decide)
  exact ⟨h1, h2, h3, h4, h5, h7 (by decide)⟩

/-- Claim C3, amended: for a wrapped block of n lines with line height L — the
explicit lineHeight if set and nonzero, otherwise fontSize × 1.2; a declared
lineHeight of 0 is treated as absent by JS truthiness and also falls back to
fontSize × 1.2 — and resolved anchor (ax, ay), the first line's draw y is
ay − nL + L for bottom-anchored alignments, ay for top-anchored ones,
ay − nL/2 + L/2 for middle-anchored ones (center/left/right); line i is drawn
at firstLineY + i·L with x = ax for every line, and a 3-line bottom-center
block starts at ay − 2L. -/
theorem drawText_multiline_placement (gen : CardGenerator) (measure : TextMeasurer)
    (ctx : Ctx) (text : Str) (layout : TextLayout) (lines : List Str) (L n ax ay : ℚ)
    (hw : wrapCond layout text = true)
    (hlines : lines = wrapText (measure (layout.fontSize, resolvedFamily gen layout)) text
        (jsOrNum layout.maxWidth (paddedLayoutOf layout).width))
    (hL : L = lineHeightOf layout)
    (hn : n = (lines.length : ℚ))
    (hax : ax = (getTextPosition (paddedLayoutOf layout)).1)
    (hay : ay = (getTextPosition (paddedLayoutOf layout)).2) :
    ∃ firstY,
      (includesStr layout.align "bottom" = true → firstY = ay - n * L + L) ∧
      ((layout.align = "top-left" ∨ layout.align = "top-center" ∨
          layout.align = "top-right") → firstY = ay) ∧
      ((layout.align = "center" ∨ layout.align = "left" ∨ layout.align = "right") →
        firstY = ay - n * L / 2 + L / 2) ∧
      (layout.align = "bottom-center" → n = 3 → firstY = ay - 2 * L) ∧
      (layout.lineHeight = none → L = layout.fontSize * 1.2) ∧
      (layout.lineHeight = some 0 → L = layout.fontSize * 1.2) ∧
      (∀ lh, layout.lineHeight = some lh → lh ≠ 0 → L = lh) ∧
      (drawText gen measure ctx text layout false none none).events =
        ctx.events ++ bgEventsOf ctx.filter layout ++
          lines.enum.map (fun iw =>
            DrawEvent.fillText (layout.fontSize, resolvedFamily gen layout) layout.color
              (getCanvasTextAlign layout.align) (getCanvasTextBaseline layout.align)
              iw.2 ax (firstY + (iw.1 : ℚ) * L)) := by
  subst hlines hL hn hax hay
  refine ⟨startYOf (paddedLayoutOf layout) (getTextPosition (paddedLayoutOf layout))
    ((wrapText (measure (layout.fontSize, resolvedFamily gen layout)) text
      (jsOrNum layout.maxWidth (paddedLayoutOf layout).width)).length : ℚ)
    (lineHeightOf layout), ?_, ?_, ?_, ?_, ?_, ?_, ?_, ?_⟩
  · intro hb
    unfold startYOf
    rw [paddedLayoutOf_align, if_pos hb]
  · intro ht
    unfold startYOf
    rw [paddedLayoutOf_align]
    rcases ht with h | h | h <;> rw [h] <;> rfl
  · intro hm
    unfold startYOf
    rw [paddedLayoutOf_align]
    rcases hm with h | h | h <;> rw [h] <;> rfl
  · intro hb hn3
    unfold startYOf
    rw [paddedLayoutOf_align, hb]
    rw [if_pos (show includesStr "bottom-center" "bottom" = true from by decide)]
    rw [hn3]
    ring
  · intro hnone
    unfold lineHeightOf jsOrNum
    rw [hnone]
  · intro h0
    unfold lineHeightOf jsOrNum
    rw [h0]
    norm_num
  · intro lh hsome hne
    unfold lineHeightOf jsOrNum
    rw [hsome]
    simp [hne]
  · rw [drawText_false_eq]
    unfold textEventsOf
    simp only [hw, if_true, paddedLayoutOf_maxWidth, List.append_assoc]

/-- A bottom-center spec that wraps "a b c" into three lines under mFix with
budget 2 (explicit line height 10). -/
def layout3 : TextLayout :=
  { defaultLayoutC with
    align := "bottom-center", maxWidth := some 2, lineHeight := some 10 }

/-- Witness for C3: a 3-line bottom-center block anchored at (50, 50) has first
line y = 50 − 2·10 and lines at x = 50, y = 30, 40, 50. -/
theorem drawText_multiline_placement_witness :
    ∃ firstY,
      (includesStr layout3.align "bottom" = true → firstY = 50 - 3 * 10 + 10) ∧
      ((layout3.align = "top-left" ∨ layout3.align = "top-center" ∨
          layout3.align = "top-right") → firstY = 50) ∧
      ((layout3.align = "center" ∨ layout3.align = "left" ∨ layout3.align = "right") →
        firstY = 50 - 3 * 10 / 2 + 10 / 2) ∧
      (layout3.align = "bottom-center" → (3 : ℚ) = 3 → firstY = 50 - 2 * 10) ∧
      (layout3.lineHeight = none → (10 : ℚ) = layout3.fontSize * 1.2) ∧
      (layout3.lineHeight = some 0 → (10 : ℚ) = layout3.fontSize * 1.2) ∧
      (∀ lh, layout3.lineHeight = some lh → lh ≠ 0 → (10 : ℚ) = lh) ∧
      (drawText gen0 mFix {} ("a b c".data) layout3 false none none).events =
        ({} : Ctx).events ++ bgEventsOf (({} : Ctx).filter) layout3 ++
          (["a".data, "b".data, "c".data].enum).map (fun iw =>
            DrawEvent.fillText (layout3.fontSize, resolvedFamily gen0 layout3) layout3.color
              (getCanvasTextAlign layout3.align) (getCanvasTextBaseline layout3.align)
              iw.2 50 (firstY + (iw.1 : ℚ) * 10)) := by
  have h := drawText_multiline_placement gen0 mFix {} ("a b c".data) layout3
    ["a".data, "b".data, "c".data] 10 3 50 50 (by decide) (by decide) (by decide)
    (by norm_num)
    (by norm_num [getTextPosition, paddedLayoutOf, layout3, defaultLayoutC]; decide)
    (by norm_num [getTextPosition, paddedLayoutOf, layout3, defaultLayoutC]; decide)
  exact h

/-- A wrapped bottom-center block that declares an explicit lineHeight of 0
(rect (0, 0, 100, 50), fontSize 10, budget 2, so "a b" wraps to two lines). -/
def layoutLH0 : TextLayout :=
  { defaultLayoutC with
    align := "bottom-center", maxWidth := some 2, lineHeight := some 0 }

/-- Counterexample to claim C3 as stated: with an explicit lineHeight of 0 the
code does not use the declared value — JS || treats 0 as absent, so the
effective line height is fontSize × 1.2 = 12 and the two wrapped lines of the
block are drawn at y = 38 and y = 50, 12 apart; the claim's L = 0 would put
both lines at the anchor y = 50. -/
theorem multiline_lineheight_cex :
    layoutLH0.lineHeight = some 0 ∧
    lineHeightOf layoutLH0 = layoutLH0.fontSize * 1.2 ∧
    lineHeightOf layoutLH0 ≠ 0 ∧
    (drawText gen0 mFix {} ("a b".data) layoutLH0 false none none).events =
      [DrawEvent.fillText (10, "Arial") "#000" "center" "bottom" ("a".data) 50 38,
       DrawEvent.fillText (10, "Arial") "#000" "center" "bottom" ("b".data) 50 50] ∧
    ¬ (38 : ℚ) = 50 := by
  have hL12 : lineHeightOf layoutLH0 = 12 := by
    norm_num [lineHeightOf, jsOrNum, layoutLH0, defaultLayoutC]
  refine ⟨rfl, ?_, ?_, ?_, by norm_num⟩
  · rw [hL12]
    norm_num [layoutLH0, defaultLayoutC]
  · rw [hL12]
    norm_num
  · rw [drawText_false_eq]
    have h1 : wrapCond layoutLH0 ("a b".data) = true := by decide
    have h3 : wrapText (mFix (layoutLH0.fontSize, resolvedFamily gen0 layoutLH0)) ("a b".data)
        (jsOrNum (paddedLayoutOf layoutLH0).maxWidth (paddedLayoutOf layoutLH0).width) =
        ["a".data, "b".data] := by decide
    have hta : getCanvasTextAlign layoutLH0.align = "center" := by decide
    have htb : getCanvasTextBaseline layoutLH0.align = "bottom" := by decide
    have hfam : resolvedFamily gen0 layoutLH0 = "Arial" := by decide
    have hfs : layoutLH0.fontSize = 10 := rfl
    have hcol : layoutLH0.color = "#000" := rfl
    have hx : (getTextPosition (paddedLayoutOf layoutLH0)).1 = 50 := by
      norm_num [getTextPosition, paddedLayoutOf, layoutLH0, defaultLayoutC]
      decide
    have hsY : startYOf (paddedLayoutOf layoutLH0) (getTextPosition (paddedLayoutOf layoutLH0))
        2 12 = 38 := by
      unfold startYOf
      rw [paddedLayoutOf_align,
        if_pos (show includesStr layoutLH0.align "bottom" = true from by decide)]
      have hy : (getTextPosition (paddedLayoutOf layoutLH0)).2 = 50 := by
        norm_num [getTextPosition, paddedLayoutOf, layoutLH0, defaultLayoutC]
        decide
      rw [hy]
      norm_num
    show textEventsOf gen0 mFix ("a b".data) layoutLH0 = _
    simp only [textEventsOf]
    rw [if_pos h1, h3]
    simp only [hta, htb, hfam, hfs, hcol, hx, hL12, List.enum, List.enumFrom, List.map]
    norm_num [hsY]

/-- Counterexample to claim C6 as stated: a block that declares an explicit
maximum width of 0 on space-free text does not run the wrapper — JS truthiness
treats the declared 0 as absent. -/
def layoutC6 : TextLayout := { defaultLayoutC with maxWidth := some 0 }

theorem wrap_invocation_cex :
    ¬ (wrapCond layoutC6 ("word".data) = true ↔
        (layoutC6.maxWidth ≠ none ∨ includesL ("word".data) [' '] = true)) := by
  decide

/-- Claim C6, amended: the wrapper runs iff the block declares a truthy
(nonzero) maximum width or the text contains a space (a declared maxWidth of 0
counts as absent under JS truthiness); a single word with no space and no
declared maximum width is drawn as exactly one unwrapped text call at the
resolved anchor. -/
theorem wrap_invocation_amended (layout : TextLayout) (text : Str) :
    (wrapCond layout text = true ↔
      (jsTruthy layout.maxWidth = true ∨ includesL text [' '] = true)) ∧
    (layout.maxWidth = none → includesL text [' '] = false →
      ∀ (gen : CardGenerator) (measure : TextMeasurer) (ctx : Ctx),
        (drawText gen measure ctx text layout false none none).events =
          ctx.events ++ bgEventsOf ctx.filter layout ++
            [DrawEvent.fillText (layout.fontSize, resolvedFamily gen layout) layout.color
              (getCanvasTextAlign layout.align) (getCanvasTextBaseline layout.align) text
              (getTextPosition (paddedLayoutOf layout)).1
              (getTextPosition (paddedLayoutOf layout)).2]) := by
  constructor
  · unfold wrapCond
    rw [Bool.or_eq_true]
  · intro hmw hsp gen measure ctx
    have hw : wrapCond layout text = false := by
      unfold wrapCond jsTruthy
      rw [hmw, hsp]
      rfl
    rw [drawText_false_eq]
    unfold textEventsOf
    simp only [hw, Bool.false_eq_true, if_false, List.append_assoc]

/-- Witness for the amended C6: "word" with no declared maxWidth is a single
text call at the center anchor, and "a b" (a space) does trigger the wrapper. -/
theorem wrap_invocation_amended_witness :
    (wrapCond defaultLayoutC ("a b".data) = true ↔
      (jsTruthy defaultLayoutC.maxWidth = true ∨ includesL ("a b".data) [' '] = true)) ∧
    (drawText gen0 mFix {} ("word".data) defaultLayoutC false none none).events =
      ({} : Ctx).events ++ bgEventsOf (({} : Ctx).filter) defaultLayoutC ++
        [DrawEvent.fillText (defaultLayoutC.fontSize, resolvedFamily gen0 defaultLayoutC)
          defaultLayoutC.color (getCanvasTextAlign defaultLayoutC.align)
          (getCanvasTextBaseline defaultLayoutC.align) ("word".data)
          (getTextPosition (paddedLayoutOf defaultLayoutC)).1
          (getTextPosition (paddedLayoutOf defaultLayoutC)).2] := by
  refine ⟨(wrap_invocation_amended defaultLayoutC ("a b".data)).1, ?_⟩
  exact (wrap_invocation_amended defaultLayoutC ("word".data)).2 rfl (by decide) gen0 mFix {}


/-- A wrapping block spec with declared budget 6 and unloaded family "F". -/
def layoutW : TextLayout := { defaultLayoutC with maxWidth := some 6 }

/-- Claim C7: one font family is resolved per block — the declared family if
loaded, else the fixed fallback — before any measurement, and that same
(size, family) font is used both by the wrapper's measurement pass and by every
final text-draw event of the block. -/
theorem font_resolution_consistent (gen : CardGenerator) (measure : TextMeasurer)
    (ctx : Ctx) (text : Str) (layout : TextLayout) :
    resolvedFamily gen layout =
      (if gen.loadedFonts.contains layout.fontFamily then layout.fontFamily else "Arial") ∧
    (∀ e ∈ textEventsOf gen measure text layout,
      eventFontOf e = some (layout.fontSize, resolvedFamily gen layout)) ∧
    (wrapCond layout text = true →
      (textEventsOf gen measure text layout).map DrawEvent.textOf =
        wrapText (measure (layout.fontSize, resolvedFamily gen layout)) text
          (jsOrNum layout.maxWidth (paddedLayoutOf layout).width)) ∧
    (drawText gen measure ctx text layout false none none).events =
      ctx.events ++ bgEventsOf ctx.filter layout ++ textEventsOf gen measure text layout := by
  refine ⟨rfl, textEventsOf_font gen measure text layout,
    textEventsOf_texts gen measure text layout, ?_⟩
  rw [drawText_false_eq]

/-- Witness for C7: with no fonts loaded, the block's declared family "F"
resolves to "Arial" for both measurement and drawing; the wrapped lines of
"aa bb cc" at budget 6 are computed with the same resolved font that every
text event carries. -/
theorem font_resolution_consistent_witness :
    resolvedFamily gen0 layoutW = "Arial" ∧
    (∀ e ∈ textEventsOf gen0 mFix ("aa bb cc".data) layoutW,
      eventFontOf e = some (layoutW.fontSize, resolvedFamily gen0 layoutW)) ∧
    (textEventsOf gen0 mFix ("aa bb cc".data) layoutW).map DrawEvent.textOf =
      wrapText (mFix (layoutW.fontSize, resolvedFamily gen0 layoutW)) ("aa bb cc".data)
        (jsOrNum layoutW.maxWidth (paddedLayoutOf layoutW).width) := by
  obtain ⟨h1, h2, h3, _⟩ :=
    font_resolution_consistent gen0 mFix {} ("aa bb cc".data) layoutW
  exact ⟨by rw [h1]; rfl, h2, h3 (by decide)⟩

/-!  ### Claims about the composer -/

theorem drawElementTemplate_none (gen : CardGenerator) (ctx : Ctx) (e : Str) :
    drawElementTemplate gen (fun _ => none) ctx e = ctx := rfl

/-- A failing artwork resolver yields the placeholder rectangle and the
"Image Not Found" caption at the configured artwork rect. -/
theorem drawCardArt_none (gen : CardGenerator) (path : String) (ctx : Ctx) :
    drawCardArt gen (fun _ => none) path ctx false =
      { ctx with fillStyle := "#666", font := (16, "Stone Serif Semibold"),
                 textAlign := "center", textBaseline := "middle",
                 events := ctx.events ++
                   [DrawEvent.fillRect "#ccc" ctx.filter gen.cardArtX gen.cardArtY
                      gen.cardArtWidth gen.cardArtHeight,
                    DrawEvent.fillText (16, "Stone Serif Semibold") "#666" "center" "middle"
                      ("Image Not Found".data) (gen.cardArtX + gen.cardArtWidth / 2)
                      (gen.cardArtY + gen.cardArtHeight / 2)] } := by
  unfold drawCardArt
  simp [Ctx.fillRect, Ctx.fillText]

/-- Claim C8: when the template resolver and the artwork resolver both fail,
composing a record still succeeds and yields the flat background fill, the
placeholder rectangle with the "Image Not Found" caption at the configured
artwork rect, and every configured text block drawn normally. -/
theorem compose_resource_failure (gen : CardGenerator) (measure : TextMeasurer)
    (card : CardData) (hA : card.Address.isEmpty = false) :
    (generateCard gen (fun _ => none) (fun _ => none) measure card false).events =
      DrawEvent.fillRect gen.backgroundColor none 0 0 gen.cardWidth gen.cardHeight ::
      DrawEvent.fillRect "#ccc" none gen.cardArtX gen.cardArtY gen.cardArtWidth
        gen.cardArtHeight ::
      DrawEvent.fillText (16, "Stone Serif Semibold") "#666" "center" "middle"
        ("Image Not Found".data) (gen.cardArtX + gen.cardArtWidth / 2)
        (gen.cardArtY + gen.cardArtHeight / 2) ::
      fieldsEventsOf gen measure card := by
  unfold generateCard
  simp only [hA, Bool.false_eq_true, if_false, drawElementTemplate_none, ite_self]
  rw [drawCardArt_none]
  simp only [drawField_events, drawField_filter]
  simp [Ctx.fillRect, fieldsEventsOf, List.append_assoc]

/-- A concrete record with every field populated. -/
def card0 : CardData :=
  { Card := "c1".data, Name := "Hero A".data, Element := "fire".data, Cost := "3".data,
    Lore := "long lore here".data, Attack := "2".data, Armor := "1".data,
    Skills := "skill one".data, Address := "abc".data }

/-- Witness for C8 on a fully populated record. -/
theorem compose_resource_failure_witness :
    (generateCard gen0 (fun _ => none) (fun _ => none) mFix card0 false).events =
      DrawEvent.fillRect gen0.backgroundColor none 0 0 gen0.cardWidth gen0.cardHeight ::
      DrawEvent.fillRect "#ccc" none gen0.cardArtX gen0.cardArtY gen0.cardArtWidth
        gen0.cardArtHeight ::
      DrawEvent.fillText (16, "Stone Serif Semibold") "#666" "center" "middle"
        ("Image Not Found".data) (gen0.cardArtX + gen0.cardArtWidth / 2)
        (gen0.cardArtY + gen0.cardArtHeight / 2) ::
      fieldsEventsOf gen0 mFix card0 :=
  compose_resource_failure gen0 mFix card0 (by decide)

/-- Claim C9: composition is deterministic — with extensionally equal
collaborators (template resolver, artwork resolver, measurer) the composer
produces identical surfaces, i.e. the same sequence of draw calls with the
same arguments. -/
theorem compose_deterministic (gen : CardGenerator) (tpl1 tpl2 art1 art2 : String → Option String)
    (m1 m2 : TextMeasurer) (card : CardData) (debugMode : Bool)
    (ht : ∀ s, tpl1 s = tpl2 s) (ha : ∀ s, art1 s = art2 s)
    (hm : ∀ f t, m1 f t = m2 f t) :
    generateCard gen tpl1 art1 m1 card debugMode =
      generateCard gen tpl2 art2 m2 card debugMode := by
  have e1 : tpl1 = tpl2 := funext ht
  have e2 : art1 = art2 := funext ha
  have e3 : m1 = m2 := funext fun f => funext fun t => hm f t
  rw [e1, e2, e3]

/-- Witness for C9 at concrete collaborators. -/
theorem compose_deterministic_witness :
    generateCard gen0 (fun _ => none) (fun _ => none) mFix card0 false =
      generateCard gen0 (fun _ => none) (fun _ => none) mFix card0 false :=
  compose_deterministic gen0 (fun _ => none) (fun _ => none) (fun _ => none) (fun _ => none)
    mFix mFix card0 false (fun _ => rfl) (fun _ => rfl) (fun _ _ => rfl)

end BeetleCard
